import Mathlib

/-!
Shallow embedding of the static-analysis engine of the `auto-reviewer`
repository (`auto_reviewer/core/static_analysis.py` and the metrics part of
`auto_reviewer/core/reviewer.py`), together with theorems settling the frozen
claims about its specification.

Modelling conventions:
* The Python parser (`ast.parse`) is the external collaborator of the engine
  (spec sections 2 and 6); it is modelled as a parameter
  `parse : String → Option PyNode`.  `none` models `ast.parse` raising
  `SyntaxError`; `some t` models a successful parse returning tree `t`.
  CPython facts used in concrete scenarios (for example that `ast.parse ""`
  succeeds with an empty `Module`) are recorded in comments at the point of
  use.
* Trees are rose trees whose nodes carry only the classification that the
  engine reads off via `isinstance` checks: `If`, `While`, `For`, `Try`,
  `ExceptHandler`, `With`, `Assert`, `AsyncFor`, `AsyncWith`, `BoolOp`, and
  everything else (`other`).  The children of a node are all its child AST
  nodes in field order, except that for a `BoolOp` node the children list is
  its `values` list (the `op` tag child, an `ast.And`/`ast.Or` leaf, is
  omitted: it is an `other` leaf contributing to no metric, and omitting it
  lets `children.length` coincide with `len(node.values)`).
* Python `int` is `Int` where the source can produce negative values
  (complexity, sentinels) and `Nat` for counts; Python floats in the
  maintainability computation are modelled as real numbers, and `math.log`
  as a function that fails (`ValueError`) exactly on non-positive arguments,
  which is its CPython behaviour.
* `re` scanning is modelled by an explicit backtracking matcher with
  Python's semantics for the constructs the catalog uses (ordered
  alternation, greedy single-character-class quantifiers, `.` excluding
  newline, `\b` word boundaries); character classes are ASCII, which is
  faithful on the ASCII inputs considered here.
-/

/-- Classification of an AST node, i.e. the only fact about a node that
`static_analysis.py` ever inspects (via `isinstance`). -/
inductive NodeKind : Type where
  | ifK
  | whileK
  | forK
  | tryK
  | exceptHandlerK
  | withK
  | assertK
  | asyncForK
  | asyncWithK
  | boolOpK
  | other
deriving DecidableEq

mutual

/-- A Python AST modelled as a rose tree of classified nodes. -/
inductive PyNode : Type where
  | mk (kind : NodeKind) (children : PyNodeList)
deriving DecidableEq

/-- Children lists, as a mutual inductive so that all traversals are
structurally recursive (and hence kernel-computable). -/
inductive PyNodeList : Type where
  | nil
  | cons (head : PyNode) (tail : PyNodeList)
deriving DecidableEq

end

/-- Build a children list from a `List`. -/
def PyNodeList.ofList : List PyNode → PyNodeList
  | [] => .nil
  | n :: ns => .cons n (PyNodeList.ofList ns)

/-- Convenient node constructor taking a plain `List` of children. -/
def pnode (k : NodeKind) (cs : List PyNode) : PyNode :=
  .mk k (PyNodeList.ofList cs)

/-- Number of children (for a `BoolOp` node this is `len(node.values)`). -/
def PyNodeList.length : PyNodeList → Nat
  | .nil => 0
  | .cons _ t => 1 + PyNodeList.length t

/-- The kind of a node. -/
def PyNode.kind : PyNode → NodeKind
  | .mk k _ => k

mutual

/-- All nodes of a tree, the node itself first (`ast.walk` enumerates the
same nodes; it happens to do so breadth-first, but every use in the source
is an order-insensitive sum over the walk). -/
def walk : PyNode → List PyNode
  | .mk k cs => .mk k cs :: walkList cs

/-- All nodes of a forest. -/
def walkList : PyNodeList → List PyNode
  | .nil => []
  | .cons h t => walk h ++ walkList t

end

/-- The node kinds counted by `StaticAnalyzer._calculate_complexity`'s
`isinstance(node, (ast.If, ast.While, ast.For, ast.Try, ast.ExceptHandler,
ast.With, ast.Assert, ast.AsyncFor, ast.AsyncWith))` check. -/
def isCountedKind : NodeKind → Bool
  | .ifK => true
  | .whileK => true
  | .forK => true
  | .tryK => true
  | .exceptHandlerK => true
  | .withK => true
  | .assertK => true
  | .asyncForK => true
  | .asyncWithK => true
  | _ => false

/-- Contribution of one walked node to the cyclomatic complexity: `1` for a
counted control-flow node, `len(node.values) - 1` for a `BoolOp`, else `0`
(`static_analysis.py` lines 79-85). -/
def nodeContrib (n : PyNode) : Int :=
  match n with
  | .mk k cs =>
    if isCountedKind k then 1
    else if k = .boolOpK then (PyNodeList.length cs : Int) - 1
    else 0

/-- Embedding of `StaticAnalyzer._calculate_complexity`: start at 1 and accumulate the
contribution of every node in the walk. -/
def calculate_complexity (tree : PyNode) : Int :=
  (walk tree).foldl (fun acc n => acc + nodeContrib n) 1

/-- The node kinds with a dedicated `visit_<K>` method in
`CognitiveComplexityVisitor` (`If`, `While`, `For`, `Try`); all other nodes
fall through to `generic_visit`. -/
def isCognitiveKind : NodeKind → Bool
  | .ifK => true
  | .whileK => true
  | .forK => true
  | .tryK => true
  | _ => false

mutual

/-- The `CognitiveComplexityVisitor` at a given nesting level: a handled
node adds `1 + nesting`, then its subtree is visited with `nesting + 1`;
any other node just visits its children at the same nesting. -/
def cogNode (nesting : Nat) : PyNode → Nat
  | .mk k cs =>
    if isCognitiveKind k then (1 + nesting) + cogList (nesting + 1) cs
    else cogList nesting cs

/-- Visit a children list, summing contributions. -/
def cogList (nesting : Nat) : PyNodeList → Nat
  | .nil => 0
  | .cons h t => cogNode nesting h + cogList nesting t

end

/-- Embedding of `StaticAnalyzer._calculate_cognitive_complexity`: run the visitor from
nesting 0 over the whole tree. -/
def calculate_cognitive_complexity (tree : PyNode) : Nat :=
  cogNode 0 tree

mutual

/-- Well-formedness of a tree as produced by the real Python parser, in the
only respect the metrics depend on: every `BoolOp` node has at least two
values (spec section 3: `BooleanCombinator (with an arity ≥ 2)`). -/
def wellFormed : PyNode → Bool
  | .mk k cs =>
    (if k = .boolOpK then decide (2 ≤ PyNodeList.length cs) else true)
      && wellFormedList cs

/-- Well-formedness of a children list. -/
def wellFormedList : PyNodeList → Bool
  | .nil => true
  | .cons h t => wellFormed h && wellFormedList t

end

/-- The apostrophe character (written by code point to keep the source free
of quote-escaping). -/
def squoteChar : Char := Char.ofNat 39

/-- The double-quote character. -/
def dquoteChar : Char := Char.ofNat 34

/-- The right-brace character. -/
def rbraceChar : Char := Char.ofNat 125

/-- Python regex `\s` restricted to ASCII: space, tab, newline, carriage
return, vertical tab, form feed. -/
def isSpaceChar (c : Char) : Bool :=
  c = ' ' || c = '\t' || c = '\n' || c = '\r' || c = Char.ofNat 11 || c = Char.ofNat 12

/-- Python regex `\w` restricted to ASCII: letters, digits, underscore. -/
def isWordChar (c : Char) : Bool :=
  c.isAlpha || c.isDigit || c = '_'

/-- The single-character classes occurring in the pattern catalog and in the
Halstead token scans of `static_analysis.py`. -/
inductive CharClass : Type where
  | lit (c : Char)
  | any
  | space
  | word
  | alphaUnder
  | opChar
  | quote
  | notSQuote
  | notRBrace
deriving DecidableEq

/-- Whether a character belongs to a class.  `any` is regex `.` (anything
but newline, no DOTALL flag in the source); `opChar` is the class
`[+\-*/%=<>!&|^~]` of line 95; `quote` is `['"]`; `notSQuote` is `[^']`;
`notRBrace` is `[^}]`; `alphaUnder` is `[a-zA-Z_]`. -/
def CharClass.test : CharClass → Char → Bool
  | .lit c, d => d = c
  | .any, d => d ≠ '\n'
  | .space, d => isSpaceChar d
  | .word, d => isWordChar d
  | .alphaUnder, d => d.isAlpha || d = '_'
  | .opChar, d =>
    d = '+' || d = '-' || d = '*' || d = '/' || d = '%' || d = '=' || d = '<'
      || d = '>' || d = '!' || d = '&' || d = '|' || d = '^' || d = '~'
  | .quote, d => d = dquoteChar || d = squoteChar
  | .notSQuote, d => d ≠ squoteChar
  | .notRBrace, d => d ≠ rbraceChar

/-- The regex constructs used by the catalog: single-character classes,
greedy star/plus over a single-character class, concatenation, ordered
alternation, the `\b` word-boundary assertion, and the empty regex.  Every
quantifier in the source's seven patterns and two token scans ranges over a
single-character class, so this grammar covers them exactly. -/
inductive Regex : Type where
  | cls (p : CharClass)
  | star (p : CharClass)
  | plus (p : CharClass)
  | seq (a b : Regex)
  | alt (a b : Regex)
  | wordB
  | eps
deriving DecidableEq

/-- Length of the maximal run of characters satisfying `p`. -/
def runLen (p : CharClass) : List Char → Nat
  | [] => 0
  | c :: rest => if p.test c then runLen p rest + 1 else 0

/-- Backtracking order for a greedy quantifier: try the continuation at
`pos + lo + d`, then `pos + lo + d - 1`, ..., down to `pos + lo`. -/
def tryDown (k : Nat → Option Nat) (pos lo : Nat) : Nat → Option Nat
  | 0 => k (pos + lo)
  | d + 1 =>
    match k (pos + lo + d + 1) with
    | some e => some e
    | none => tryDown k pos lo d

/-- Whether position `i` of `cs` holds a word character (out-of-range
positions do not). -/
def isWordAt (cs : List Char) (i : Nat) : Bool :=
  match cs[i]? with
  | some c => isWordChar c
  | none => false

/-- Python's `\b`: the word-character status changes between the previous
position and the current one (positions before the start count as
non-word). -/
def isWordBoundary (cs : List Char) (pos : Nat) : Bool :=
  (if pos = 0 then false else isWordAt cs (pos - 1)) != isWordAt cs pos

/-- The backtracking matcher in continuation style, with Python `re`
semantics: ordered alternation (left first) and greedy quantifiers
(longest first).  `matchC r cs pos k` attempts to match `r` starting at
`pos` and passes the end position of each candidate match to `k`, returning
the first success. -/
def matchC : Regex → List Char → Nat → (Nat → Option Nat) → Option Nat
  | .cls p, cs, pos, k =>
    match cs[pos]? with
    | some c => if p.test c then k (pos + 1) else none
    | none => none
  | .star p, cs, pos, k => tryDown k pos 0 (runLen p (cs.drop pos))
  | .plus p, cs, pos, k =>
    match runLen p (cs.drop pos) with
    | 0 => none
    | m + 1 => tryDown k pos 1 m
  | .seq a b, cs, pos, k => matchC a cs pos (fun p2 => matchC b cs p2 k)
  | .alt a b, cs, pos, k =>
    match matchC a cs pos k with
    | some e => some e
    | none => matchC b cs pos k
  | .wordB, cs, pos, k => if isWordBoundary cs pos then k pos else none
  | .eps, _, pos, k => k pos

/-- First match of `r` anchored at `pos`: `some e` is the end position. -/
def matchAt (r : Regex) (cs : List Char) (pos : Nat) : Option Nat :=
  matchC r cs pos some

/-- Scanning loop of `re.finditer`: try each position left to right,
resume after the end of each (non-overlapping) match, stepping one
character past an empty match.  The fuel argument bounds the number of
iterations; since the position strictly increases, `cs.length + 1` steps
always suffice. -/
def finditerAux (r : Regex) (cs : List Char) : Nat → Nat → List (Nat × Nat)
  | _, 0 => []
  | pos, fuel + 1 =>
    if pos > cs.length then []
    else
      match matchAt r cs pos with
      | some e => (pos, e) :: finditerAux r cs (if e = pos then pos + 1 else e) fuel
      | none => finditerAux r cs (pos + 1) fuel

/-- Model of `re.finditer(pattern, code)` as the list of `(start, end)` spans of its
matches, in document order. -/
def finditer (r : Regex) (cs : List Char) : List (Nat × Nat) :=
  finditerAux r cs 0 (cs.length + 1)

/-- Model of `re.findall` for a groupless pattern: the matched substrings. -/
def findall (r : Regex) (cs : List Char) : List (List Char) :=
  (finditer r cs).map (fun m => ((cs.drop m.1).take (m.2 - m.1)))

/-- Concatenation of a literal string as a regex. -/
def litR : List Char → Regex
  | [] => .eps
  | c :: cs => .seq (.cls (.lit c)) (litR cs)

/-- Right-nested concatenation of a list of regexes. -/
def seqR : List Regex → Regex
  | [] => .eps
  | [r] => r
  | r :: rs => .seq r (seqR rs)

/-- Python's `code.split('\n')`: split at every newline, keeping empty
pieces (a text with `n` newlines yields `n + 1` lines). -/
def splitLines : List Char → List (List Char)
  | [] => [[]]
  | c :: cs =>
    if c = '\n' then [] :: splitLines cs
    else
      match splitLines cs with
      | [] => [[c]]
      | l :: ls => (c :: l) :: ls

/-- Python's `line.strip()`: drop whitespace from both ends. -/
def pyStrip (cs : List Char) : List Char :=
  ((cs.dropWhile isSpaceChar).reverse.dropWhile isSpaceChar).reverse

/-- Lines of `code` as split by `_calculate_maintainability`. -/
def linesOf (code : String) : List (List Char) :=
  splitLines code.data

/-- Source value `loc`: the number of lines whose stripped form is non-empty
(line 91 of `static_analysis.py`). -/
def locOf (code : String) : Nat :=
  ((linesOf code).filter (fun l => pyStrip l ≠ [])).length

/-- Source value `comment_lines`: lines whose stripped form starts with a hash
(line 92). -/
def commentLinesOf (code : String) : Nat :=
  ((linesOf code).filter (fun l => (pyStrip l).head? = some '#')).length

/-- The operator scan of line 95: `re.findall(r'[+\-*/%=<>!&|^~]', code)`. -/
def operatorRe : Regex := .cls .opChar

/-- The operand scan of line 96: `re.findall(r'\b[a-zA-Z_]\w*\b', code)`. -/
def identRe : Regex := seqR [.wordB, .cls .alphaUnder, .star .word, .wordB]

/-- Source value `unique_operators`: the number of distinct matches of the operator
scan (`len(set(...))`). -/
def uniqueOperators (code : String) : Nat :=
  ((findall operatorRe code.data).eraseDups).length

/-- Source value `unique_operands`: the number of distinct matches of the operand
scan. -/
def uniqueOperands (code : String) : Nat :=
  ((findall identRe code.data).eraseDups).length

/-- Pattern `(eval|exec)\s*\(`. -/
def evalExecRe : Regex :=
  seqR [.alt (litR "eval".data) (litR "exec".data), .star .space, .cls (.lit '(')]

/-- Pattern `(os\.system|subprocess\.call)`. -/
def shellInjectionRe : Regex :=
  .alt (litR "os.system".data) (litR "subprocess.call".data)

/-- Pattern `execute\s*\(\s*['"][^']*%[^']*['"]\s*%`. -/
def sqlInjectionRe : Regex :=
  seqR [litR "execute".data, .star .space, .cls (.lit '('), .star .space,
    .cls .quote, .star .notSQuote, .cls (.lit '%'), .star .notSQuote,
    .cls .quote, .star .space, .cls (.lit '%')]

/-- Pattern `for\s+\w+\s+in\s+range\(len\(`. -/
def listInLoopRe : Regex :=
  seqR [litR "for".data, .plus .space, .plus .word, .plus .space,
    litR "in".data, .plus .space, litR "range(len(".data]

/-- Pattern `for.*:\s*\n\s*for.*:`. -/
def nestedLoopsRe : Regex :=
  seqR [litR "for".data, .star .any, .cls (.lit ':'), .star .space,
    .cls (.lit '\n'), .star .space, litR "for".data, .star .any, .cls (.lit ':')]

/-- Pattern `def\s+\w+[^}]*\}`. -/
def longFunctionRe : Regex :=
  seqR [litR "def".data, .plus .space, .plus .word, .star .notRBrace,
    .cls (.lit rbraceChar)]

/-- Pattern `if.*and.*or.*:`. -/
def complexConditionRe : Regex :=
  seqR [litR "if".data, .star .any, litR "and".data, .star .any,
    litR "or".data, .star .any, .cls (.lit ':')]

/-- The fixed pattern catalog of `_setup_patterns`, in insertion order of
the nested dicts: three categories, each with its rules in declaration
order, each rule paired with its description. -/
def patternCatalog : List (String × List (Regex × String)) :=
  [("security",
     [(evalExecRe, "Use of eval() or exec()"),
      (shellInjectionRe, "Potential shell injection"),
      (sqlInjectionRe, "Potential SQL injection")]),
   ("performance",
     [(listInLoopRe, "Inefficient list iteration"),
      (nestedLoopsRe, "Nested loops detected")]),
   ("maintainability",
     [(longFunctionRe, "Long function definition"),
      (complexConditionRe, "Complex conditional")])]

/-- The findings of one category: for every rule in order, every match in
document order, as `(line_no, description)` with
`line_no = code.count('\n', 0, match.start()) + 1` (line 151). -/
def categoryFindings (cs : List Char) (rules : List (Regex × String)) :
    List (Nat × String) :=
  rules.flatMap (fun rule =>
    (finditer rule.1 cs).map (fun m => ((cs.take m.1).count '\n' + 1, rule.2)))

/-- Embedding of `StaticAnalyzer._find_patterns`: per-category findings, keeping only
the categories with at least one finding (lines 143-156). -/
def find_patterns (code : String) : List (String × List (Nat × String)) :=
  (patternCatalog.map (fun cat => (cat.1, categoryFindings code.data cat.2))).filter
    (fun cat => cat.2 ≠ [])

/-- An issue dict as built by `_collect_issues` / `analyze_code`.  `none`
in `line` models both an explicit `None` value and an absent key; `none`
in `category` models an absent key (only the degraded syntax-error issue
omits it). -/
structure Issue : Type where
  line : Option Nat
  category : Option String
  severity : String
  message : String
deriving DecidableEq

/-- The pattern-based issues of `_collect_issues` (lines 163-170):
severity is `high` for the `security` category and `medium` otherwise. -/
def patternIssues : List (String × List (Nat × String)) → List Issue
  | [] => []
  | entry :: rest =>
    entry.2.map (fun f =>
      { line := some f.1
        category := some entry.1
        severity := if entry.1 = "security" then "high" else "medium"
        message := f.2 })
      ++ patternIssues rest

/-- Embedding of `StaticAnalyzer._collect_issues`: pattern issues first, then, when the
recomputed cyclomatic complexity exceeds 10, one synthetic
maintainability issue with no line (lines 158-182). -/
def collect_issues (tree : PyNode) (patterns_found : List (String × List (Nat × String))) :
    List Issue :=
  patternIssues patterns_found
    ++ (if 10 < calculate_complexity tree then
          [{ line := none
             category := some "maintainability"
             severity := "medium"
             message := "High cyclomatic complexity: " ++ toString (calculate_complexity tree) }]
        else [])

/-- The exceptions the analysis can raise: `parseError` models Python's
`SyntaxError` from `ast.parse`, `valueError` models the `ValueError`
(math domain error) from `math.log` on a non-positive argument. -/
inductive PyError : Type where
  | parseError
  | valueError
deriving DecidableEq

/-- Python's `math.log`: raises `ValueError` (math domain error) exactly
on non-positive arguments, otherwise returns the natural logarithm. -/
noncomputable def mathLog (x : ℝ) : Except PyError ℝ :=
  if x ≤ 0 then .error .valueError else .ok (Real.log x)

/-- Embedding of `StaticAnalyzer._calculate_maintainability` (lines 88-106), with the
parser passed explicitly because line 100 re-parses the source
(`self._calculate_complexity(ast.parse(code))`).  The inner logarithm's
argument is `loc if loc > 0 else 1`; the outer logarithm's argument is
`volume`, unfloored, so `mathLog` can fail there. -/
noncomputable def calculate_maintainability (parse : String → Option PyNode)
    (code : String) : Except PyError ℝ :=
  let loc := locOf code
  let comment_lines := commentLinesOf code
  let unique_operators := uniqueOperators code
  let unique_operands := uniqueOperands code
  match mathLog (if 0 < loc then (loc : ℝ) else 1) with
  | .error e => .error e
  | .ok innerLog =>
    let volume : ℝ := ((unique_operators + unique_operands : Nat) : ℝ) * innerLog
    match mathLog volume with
    | .error e => .error e
    | .ok outerLog =>
      match parse code with
      | none => .error .parseError
      | some tree =>
        let maintainability : ℝ :=
          171 - 5.2 * outerLog - 0.23 * ((calculate_complexity tree : Int) : ℝ)
        let comment_ratio : ℝ := if 0 < loc then (comment_lines : ℝ) / (loc : ℝ) else 0
        .ok (max 0 (min 100 (maintainability + 50 * comment_ratio)))

/-- Embedding of the `StaticAnalysisResult` dataclass (lines 9-16). -/
structure StaticAnalysisResult : Type where
  complexity : Int
  maintainability : ℝ
  cognitive_complexity : Int
  issues : List Issue
  patterns_found : List (String × List (Nat × String))

/-- The degraded result built in the `except SyntaxError` handler
(lines 67-74): all metric fields `-1`, a single error issue whose dict has
neither a line nor a category key, and an empty pattern mapping. -/
noncomputable def degradedResult : StaticAnalysisResult :=
  { complexity := -1
    maintainability := -1
    cognitive_complexity := -1
    issues := [{ line := none, category := none, severity := "error",
                 message := "Invalid Python syntax" }]
    patterns_found := [] }

/-- Embedding of `StaticAnalyzer.analyze_code` (lines 43-74).  The `try` block parses,
computes the three metrics, scans for patterns and aggregates issues; the
`except SyntaxError` handler returns the degraded result.  A `SyntaxError`
can arise from the initial `ast.parse` or from the re-parse inside the
maintainability computation (both modelled by the same deterministic
`parse`); a `ValueError` from `math.log` is not caught and propagates. -/
noncomputable def analyze_code (parse : String → Option PyNode) (code : String) :
    Except PyError StaticAnalysisResult :=
  match parse code with
  | none => .ok degradedResult
  | some tree =>
    match calculate_maintainability parse code with
    | .error .parseError => .ok degradedResult
    | .error e => .error e
    | .ok maintainability =>
      let patterns_found := find_patterns code
      .ok { complexity := calculate_complexity tree
            maintainability := maintainability
            cognitive_complexity := (calculate_cognitive_complexity tree : Int)
            issues := collect_issues tree patterns_found
            patterns_found := patterns_found }

/-- The `CodeMetrics` dataclass of `reviewer.py` (lines 17-24). -/
structure CodeMetrics : Type where
  cyclomatic_complexity : Int
  maintainability_index : ℝ
  cognitive_complexity : Int
  lines_of_code : Int
  comment_ratio : ℝ

/-- The exceptions relevant to `CodeReviewer._calculate_metrics`:
`parseExc` models `SyntaxError` from `ast.parse`, `attributeExc` models the
`AttributeError` raised by the call
`self._calculate_cyclomatic_complexity(tree)` on line 147 — no method of
that name (nor `_calculate_maintainability_index`,
`_calculate_cognitive_complexity`, `_calculate_loc_metrics`) is defined
anywhere in `reviewer.py`, and `CodeReviewer` has no base class, so the
first attribute lookup after a successful parse raises. -/
inductive PyExc : Type where
  | parseExc
  | attributeExc
deriving DecidableEq

/-- The `try` body of `CodeReviewer._calculate_metrics` (lines 143-164):
parse, then immediately fail with `AttributeError` on the missing helper
method; the non-sentinel `CodeMetrics` construction on lines 158-164 is
unreachable. -/
def reviewer_metrics_body (parse : String → Option PyNode) (content : String) :
    Except PyExc CodeMetrics :=
  match parse content with
  | none => .error .parseExc
  | some _ => .error .attributeExc

/-- Embedding of `CodeReviewer._calculate_metrics` (lines 141-173): the catch-all
`except Exception` handler turns every exception from the body into the
all-sentinel `CodeMetrics`. -/
def reviewer_calculate_metrics (parse : String → Option PyNode) (content : String) :
    CodeMetrics :=
  match reviewer_metrics_body parse content with
  | .ok m => m
  | .error _ =>
    { cyclomatic_complexity := -1
      maintainability_index := -1
      cognitive_complexity := -1
      lines_of_code := -1
      comment_ratio := -1 }


set_option maxRecDepth 100000

/-- The threshold-scenario source: a function body consisting of eleven
independent (unnested) `if` statements.  Valid Python; it contains no
operator characters, no braces, and none of the catalog's trigger words
except `if` (and no `and`/`or` on an `if` line), so no pattern matches. -/
def elevenIfCode : String :=
  "def f():\n if a:\n  b\n if a:\n  b\n if a:\n  b\n if a:\n  b\n if a:\n  b\n if a:\n  b\n if a:\n  b\n if a:\n  b\n if a:\n  b\n if a:\n  b\n if a:\n  b\n"

/-- The tree CPython's parser yields for `elevenIfCode`, classified:
`Module` containing a `FunctionDef` whose children are its `arguments`
node followed by eleven `If` statements, each `If` having a `Name` test
and a one-statement body.  No other counted node kinds occur. -/
def elevenIfTree : PyNode :=
  pnode .other
    [pnode .other
      (pnode .other [] ::
        List.replicate 11 (pnode .ifK [pnode .other [], pnode .other []]))]

/-- The pattern-scenario source: three filler lines, a dynamic-execution
call on line 4 and a shell invocation on line 5. -/
def patternScenarioCode : String := "a\nb\nc\neval(x)\nos.system(y)"

/-- The tree CPython's parser yields for `patternScenarioCode`: a `Module`
of five expression statements, none of a counted kind. -/
def patternScenarioTree : PyNode :=
  pnode .other (List.replicate 5 (pnode .other []))

/-- The nesting-scenario tree: a loop containing a branch containing
another branch (a `For` whose body holds an `If` whose body holds an
`If`), as produced for e.g.
`for i in x:` / `  if a:` / `    if b:` / `      c`. -/
def nestedScenarioTree : PyNode :=
  pnode .other
    [pnode .forK
      [pnode .other [], pnode .other [],
       pnode .ifK
         [pnode .other [],
          pnode .ifK [pnode .other [], pnode .other [pnode .other []]]]]]

/-- The flat variant: the same three constructs (one loop, two branches)
as unnested siblings at module level. -/
def flatScenarioTree : PyNode :=
  pnode .other
    [pnode .forK [pnode .other [], pnode .other [], pnode .other []],
     pnode .ifK [pnode .other [], pnode .other []],
     pnode .ifK [pnode .other [], pnode .other []]]

/-- The plain per-construct count: how many nodes of the cognitive rule
set (`If`/`While`/`For`/`Try`) a tree contains, with no nesting weight. -/
def constructCount (t : PyNode) : Nat :=
  ((walk t).filter (fun n => isCognitiveKind n.kind)).length

/-- Nodes that can contribute to the cyclomatic complexity sum: counted
control-flow nodes and boolean combinators. -/
def isComplexityRelevant (n : PyNode) : Bool :=
  isCountedKind n.kind || n.kind = .boolOpK

/-- The tree CPython's parser yields for the empty source string:
`ast.parse ""` succeeds with `Module(body=[], type_ignores=[])`, a single
unclassified node with no children. -/
def emptyModuleTree : PyNode := pnode .other []

/-- The tree CPython's parser yields for the one-line source `x = 1`:
`Module` containing an `Assign` with a `Name` target and a constant —
no counted node kinds. -/
def oneAssignTree : PyNode :=
  pnode .other [pnode .other [pnode .other [], pnode .other []]]

/-- A module holding one `try` statement with a single `except` clause
(and no other counted constructs), e.g. `try:` / ` a` / `except E:` / ` b`:
the `Try` node's children are its body statement and the
`ExceptHandler`, whose child is the handler body statement. -/
def tryScenarioTree : PyNode :=
  pnode .other [pnode .tryK [pnode .other [], pnode .exceptHandlerK [pnode .other []]]]

/-- A fold that adds per-element contributions equals the start value plus
the sum of contributions. -/
theorem foldl_add_eq_sum (f : PyNode → Int) :
    ∀ (l : List PyNode) (c : Int), l.foldl (fun acc n => acc + f n) c = c + (l.map f).sum
  | [], c => by simp
  | n :: l, c => by
    rw [List.foldl_cons, foldl_add_eq_sum f l, List.map_cons, List.sum_cons]
    ring

mutual

/-- Every node in the walk of a well-formed tree is well-formed. -/
theorem wellFormed_of_mem_walk :
    ∀ (t : PyNode), wellFormed t = true → ∀ n ∈ walk t, wellFormed n = true
  | .mk k cs => by
    intro hwf n hn
    rw [walk] at hn
    rcases List.mem_cons.mp hn with rfl | hn
    · exact hwf
    · refine wellFormed_of_mem_walkList cs ?_ n hn
      rw [wellFormed, Bool.and_eq_true] at hwf
      exact hwf.2

/-- Every node in the walk of a well-formed forest is well-formed. -/
theorem wellFormed_of_mem_walkList :
    ∀ (l : PyNodeList), wellFormedList l = true → ∀ n ∈ walkList l, wellFormed n = true
  | .nil => by
    intro _ n hn
    rw [walkList] at hn
    cases hn
  | .cons h t => by
    intro hwf n hn
    rw [wellFormedList, Bool.and_eq_true] at hwf
    rw [walkList] at hn
    rcases List.mem_append.mp hn with hn | hn
    · exact wellFormed_of_mem_walk h hwf.1 n hn
    · exact wellFormed_of_mem_walkList t hwf.2 n hn

end

/-- A well-formed node contributes a non-negative amount to the
cyclomatic sum (a `BoolOp` with `k ≥ 2` values contributes `k - 1 ≥ 1`). -/
theorem nodeContrib_nonneg (n : PyNode) (h : wellFormed n = true) : 0 ≤ nodeContrib n := by
  cases n with
  | mk k cs =>
    rw [nodeContrib]
    split
    · norm_num
    · split
      · rename_i hbool
        rw [wellFormed, if_pos hbool, Bool.and_eq_true, decide_eq_true_eq] at h
        omega
      · norm_num

/-- On well-formed trees the cyclomatic complexity is at least the
baseline 1; in particular it is never the sentinel `-1`. -/
theorem one_le_calculate_complexity (t : PyNode) (h : wellFormed t = true) :
    1 ≤ calculate_complexity t := by
  rw [calculate_complexity, foldl_add_eq_sum]
  have hsum : 0 ≤ ((walk t).map nodeContrib).sum := by
    refine List.sum_nonneg ?_
    intro x hx
    rcases List.mem_map.mp hx with ⟨n, hn, rfl⟩
    exact nodeContrib_nonneg n (wellFormed_of_mem_walk t h n hn)
  omega

/-- Every pattern-based issue has severity `high` or `medium`. -/
theorem patternIssues_severity :
    ∀ (pf : List (String × List (Nat × String))), ∀ i ∈ patternIssues pf,
      i.severity = "high" ∨ i.severity = "medium"
  | [] => by
    intro i hi
    rw [patternIssues] at hi
    cases hi
  | entry :: rest => by
    intro i hi
    rw [patternIssues] at hi
    rcases List.mem_append.mp hi with hi | hi
    · rcases List.mem_map.mp hi with ⟨f, _, rfl⟩
      dsimp only
      split
      · left; rfl
      · right; rfl
    · exact patternIssues_severity rest i hi

/-- Every issue emitted by the aggregator on a successful parse has
severity `high` or `medium`. -/
theorem collect_issues_severity (t : PyNode) (pf : List (String × List (Nat × String)))
    (i : Issue) (hi : i ∈ collect_issues t pf) :
    i.severity = "high" ∨ i.severity = "medium" := by
  rw [collect_issues] at hi
  rcases List.mem_append.mp hi with hi | hi
  · exact patternIssues_severity pf i hi
  · split at hi
    · rw [List.mem_singleton] at hi
      subst hi
      right; rfl
    · cases hi

/-- Lemma: `math.log` succeeds on positive arguments. -/
theorem mathLog_pos {x : ℝ} (h : 0 < x) : mathLog x = .ok (Real.log x) := by
  rw [mathLog, if_neg (not_le.mpr h)]

/-- Lemma: `math.log` raises `ValueError` on non-positive arguments. -/
theorem mathLog_nonpos {x : ℝ} (h : x ≤ 0) : mathLog x = .error .valueError := by
  rw [mathLog, if_pos h]

/-- The only error `math.log` raises is `ValueError`. -/
theorem mathLog_error {x : ℝ} {e : PyError} (h : mathLog x = .error e) : e = .valueError := by
  rw [mathLog] at h
  split at h
  · cases h
    rfl
  · cases h

/-- When the source has at most one non-blank line, the inner logarithm's
argument reduces to 1, so `volume = (U_op + U_operand) · ln 1 = 0` and the
outer `math.log` raises `ValueError` — for any parser, because the
exception fires before the re-parse on line 100 is reached. -/
theorem maintainability_valueError_of_loc_le_one (parse : String → Option PyNode)
    (code : String) (h : locOf code ≤ 1) :
    calculate_maintainability parse code = .error .valueError := by
  have harg : (if 0 < locOf code then ((locOf code : ℕ) : ℝ) else 1) = 1 := by
    rcases Nat.le_one_iff_eq_zero_or_eq_one.mp h with h0 | h1
    · rw [if_neg (by omega)]
    · rw [h1, if_pos (by omega), Nat.cast_one]
  simp only [calculate_maintainability]
  rw [harg]
  split
  · rename_i e he
    rw [mathLog_pos one_pos] at he
    cases he
  · rename_i innerLog he
    rw [mathLog_pos one_pos] at he
    injection he with he'
    subst he'
    split
    · rename_i e he2
      rw [mathLog_error he2]
    · rename_i outerLog he2
      rw [Real.log_one, mul_zero, mathLog_nonpos le_rfl] at he2
      cases he2

/-- When the source has at least two non-blank lines and at least one
operator or operand token, the maintainability computation succeeds. -/
theorem maintainability_ok (parse : String → Option PyNode) (code : String) (tree : PyNode)
    (hp : parse code = some tree) (hloc : 2 ≤ locOf code)
    (htok : 1 ≤ uniqueOperators code + uniqueOperands code) :
    ∃ v, calculate_maintainability parse code = .ok v := by
  have h0 : (0 : ℝ) < ((locOf code : ℕ) : ℝ) := by
    have : 0 < locOf code := by omega
    exact_mod_cast this
  have h1 : (1 : ℝ) < ((locOf code : ℕ) : ℝ) := by exact_mod_cast hloc
  have harg : (if 0 < locOf code then ((locOf code : ℕ) : ℝ) else 1) = ((locOf code : ℕ) : ℝ) :=
    if_pos (by omega)
  have hvol : (0 : ℝ) <
      ((uniqueOperators code + uniqueOperands code : ℕ) : ℝ) * Real.log ((locOf code : ℕ) : ℝ) := by
    refine mul_pos ?_ (Real.log_pos h1)
    have : 0 < uniqueOperators code + uniqueOperands code := by omega
    exact_mod_cast this
  cases hres : calculate_maintainability parse code with
  | ok v => exact ⟨v, rfl⟩
  | error e =>
    exfalso
    simp only [calculate_maintainability] at hres
    rw [harg] at hres
    split at hres
    · rename_i he
      rw [mathLog_pos h0] at he
      cases he
    · rename_i innerLog he
      rw [mathLog_pos h0] at he
      injection he with he'
      subst he'
      split at hres
      · rename_i he2
        rw [mathLog_pos hvol] at he2
        cases he2
      · split at hres
        · rename_i hnone
          rw [hp] at hnone
          cases hnone
        · cases hres

/-- Given a successful parse, a failing maintainability computation can
only have raised `ValueError`. -/
theorem maintainability_error_eq (parse : String → Option PyNode) (code : String)
    (tree : PyNode) (hp : parse code = some tree) {e : PyError}
    (hm : calculate_maintainability parse code = .error e) : e = .valueError := by
  simp only [calculate_maintainability] at hm
  split at hm
  · cases hm
    exact mathLog_error (by assumption)
  · split at hm
    · cases hm
      exact mathLog_error (by assumption)
    · rw [hp] at hm
      cases hm

/-- Shape of `analyze_code` on a successful parse and successful
maintainability computation. -/
theorem analyze_code_ok (parse : String → Option PyNode) (code : String) (tree : PyNode)
    (v : ℝ) (hp : parse code = some tree)
    (hm : calculate_maintainability parse code = .ok v) :
    analyze_code parse code = .ok
      { complexity := calculate_complexity tree
        maintainability := v
        cognitive_complexity := (calculate_cognitive_complexity tree : Int)
        issues := collect_issues tree (find_patterns code)
        patterns_found := find_patterns code } := by
  simp only [analyze_code]
  rw [hp, hm]

/-- Lemma: `analyze_code` propagates a `ValueError` from the maintainability
computation: the `except SyntaxError` handler does not catch it. -/
theorem analyze_code_valueError (parse : String → Option PyNode) (code : String)
    (tree : PyNode) (hp : parse code = some tree)
    (hm : calculate_maintainability parse code = .error .valueError) :
    analyze_code parse code = .error .valueError := by
  simp only [analyze_code]
  rw [hp, hm]

/-- Lemma: `analyze_code` on a parse failure returns the degraded result. -/
theorem analyze_code_parse_failure (parse : String → Option PyNode) (code : String)
    (hp : parse code = none) : analyze_code parse code = .ok degradedResult := by
  simp only [analyze_code]
  rw [hp]

/-- A node that is neither a counted control-flow node nor a boolean
combinator contributes 0 to the cyclomatic sum. -/
theorem nodeContrib_eq_zero (n : PyNode) (h : isComplexityRelevant n = false) :
    nodeContrib n = 0 := by
  cases n with
  | mk k cs =>
    rw [isComplexityRelevant] at h
    simp only [PyNode.kind, Bool.or_eq_false_iff, decide_eq_false_iff_not] at h
    rw [nodeContrib, if_neg (by simp [h.1]), if_neg h.2]

/-- The cyclomatic sum only sees the complexity-relevant nodes. -/
theorem sum_contrib_filter :
    ∀ l : List PyNode,
      ((l.filter isComplexityRelevant).map nodeContrib).sum = (l.map nodeContrib).sum
  | [] => by simp
  | n :: l => by
    rw [List.map_cons, List.sum_cons, ← sum_contrib_filter l]
    cases hrel : isComplexityRelevant n with
    | true =>
      rw [List.filter_cons_of_pos (by rw [hrel]), List.map_cons, List.sum_cons]
    | false =>
      rw [List.filter_cons_of_neg (by rw [hrel]; exact Bool.false_ne_true),
        nodeContrib_eq_zero n hrel, zero_add]

/-- C1 (code bug): the claim — and the spec — say `analyze` is total and
returns normally even when the Halstead volume approximation is 0.  In the
code it is not: for the empty source (which CPython parses successfully as
an empty `Module`), `loc = 0`, so `volume = (U_op + U_operand) · ln 1 = 0`
and `math.log(0)` on line 100 raises `ValueError`, which the
`except SyntaxError` handler of `analyze_code` does not catch; the
exception propagates past the boundary instead of a degraded result. -/
theorem C1_analyze_raises_on_empty_source :
    analyze_code (fun _ => some emptyModuleTree) "" = .error .valueError := by
  have hm := maintainability_valueError_of_loc_le_one
    (fun _ => some emptyModuleTree) "" (by decide)
  exact analyze_code_valueError _ _ emptyModuleTree rfl hm

/-- C2 (code bug): the claim says the volume passed to the outer `ln` is
floored to at least 1 so that the domain-error branch is unreachable for
every syntactically valid input, including one-non-blank-line inputs.  In
the code only the inner logarithm's argument (`loc if loc > 0 else 1`) is
floored; for the valid one-line source `x = 1` (one non-blank line) the
volume is `(1 + 1) · ln 1 = 0` and the outer `math.log` raises the domain
`ValueError`. -/
theorem C2_outer_log_argument_not_floored :
    locOf "x = 1" = 1 ∧
    calculate_maintainability (fun _ => some oneAssignTree) "x = 1" = .error .valueError :=
  ⟨by decide,
   maintainability_valueError_of_loc_le_one (fun _ => some oneAssignTree) "x = 1" (by decide)⟩

/-- C3: degradation invariant of `analyze`.  For every returned result: if
the complexity field is the sentinel `-1` then the other metric fields are
`-1`, the issue list is exactly one error-severity issue with no line, and
the pattern mapping is empty; conversely on a successful parse no emitted
issue has severity `error`.  (Well-formedness — every `BoolOp` having at
least two values — is what the real parser guarantees, spec section 3.) -/
theorem C3_degradation_invariant (parse : String → Option PyNode) (code : String)
    (r : StaticAnalysisResult)
    (hwf : ∀ t, parse code = some t → wellFormed t = true)
    (h : analyze_code parse code = .ok r) :
    (r.complexity = -1 →
      r.maintainability = -1 ∧ r.cognitive_complexity = -1 ∧
      r.issues = [{ line := none, category := none, severity := "error",
                    message := "Invalid Python syntax" }] ∧
      r.patterns_found = []) ∧
    (∀ t, parse code = some t → ∀ i ∈ r.issues, i.severity ≠ "error") := by
  cases hp : parse code with
  | none =>
    rw [analyze_code_parse_failure parse code hp] at h
    injection h with h'
    subst h'
    exact ⟨fun _ => ⟨rfl, rfl, rfl, rfl⟩, fun t ht => by cases ht⟩
  | some tree =>
    cases hm : calculate_maintainability parse code with
    | error e =>
      have he := maintainability_error_eq parse code tree hp hm
      subst he
      rw [analyze_code_valueError parse code tree hp hm] at h
      cases h
    | ok v =>
      rw [analyze_code_ok parse code tree v hp hm] at h
      injection h with h'
      subst h'
      constructor
      · intro hc
        exfalso
        have h1 : 1 ≤ calculate_complexity tree := one_le_calculate_complexity tree (hwf tree hp)
        have h2 : calculate_complexity tree = -1 := hc
        omega
      · intro t _ i hi
        rcases collect_issues_severity tree (find_patterns code) i hi with h1 | h1 <;>
          rw [h1] <;> decide

/-- Witness for C3 at a concrete failing parse. -/
theorem C3_degradation_invariant_witness :
    (degradedResult.complexity = -1 →
      degradedResult.maintainability = -1 ∧ degradedResult.cognitive_complexity = -1 ∧
      degradedResult.issues = [{ line := none, category := none, severity := "error",
                                 message := "Invalid Python syntax" }] ∧
      degradedResult.patterns_found = []) ∧
    (∀ t, (fun _ : String => (none : Option PyNode)) "x" = some t →
      ∀ i ∈ degradedResult.issues, i.severity ≠ "error") :=
  C3_degradation_invariant (fun _ => none) "x" degradedResult
    (fun t ht => by cases ht) rfl

/-- C4 counterexample: the claim says the parse-failure issue's message is
the string `invalid syntax`; on a concrete unparseable input the emitted
message is `Invalid Python syntax`, a different string. -/
theorem C4_message_counterexample :
    analyze_code (fun _ => (none : Option PyNode)) "def f(:" = .ok degradedResult ∧
    degradedResult.issues.map Issue.message = ["Invalid Python syntax"] ∧
    ("Invalid Python syntax" : String) ≠ "invalid syntax" :=
  ⟨analyze_code_parse_failure _ _ rfl, rfl, by decide⟩

/-- C4 (amended): for every input that fails to parse, the result is the
degraded record — exactly one error-severity issue with no line and with
message `Invalid Python syntax`, and no pattern scanning or threshold
checking output (empty pattern mapping, no other issues). -/
theorem C4_parse_failure_result (parse : String → Option PyNode) (code : String)
    (h : parse code = none) :
    analyze_code parse code = .ok
      { complexity := -1
        maintainability := -1
        cognitive_complexity := -1
        issues := [{ line := none, category := none, severity := "error",
                     message := "Invalid Python syntax" }]
        patterns_found := [] } :=
  analyze_code_parse_failure parse code h

/-- Witness for C4 at a concrete failing parse. -/
theorem C4_parse_failure_result_witness :
    analyze_code (fun _ => (none : Option PyNode)) "(" = .ok
      { complexity := -1
        maintainability := -1
        cognitive_complexity := -1
        issues := [{ line := none, category := none, severity := "error",
                     message := "Invalid Python syntax" }]
        patterns_found := [] } :=
  C4_parse_failure_result (fun _ => none) "(" rfl

/-- C5: on the eleven-independent-`if` function, `analyze` returns
cyclomatic complexity `12` (1 baseline + 11) and the issue list is exactly
the single synthetic medium-severity, line-less complexity issue whose
message reports the value 12 — one issue in total, however far above 10
the complexity is; and whenever the complexity is at most 10 the
aggregator appends no such issue at all. -/
theorem C5_threshold_scenario (parse : String → Option PyNode)
    (h : parse elevenIfCode = some elevenIfTree) :
    (∃ r, analyze_code parse elevenIfCode = .ok r ∧
      r.complexity = 12 ∧
      r.issues = [{ line := none, category := some "maintainability",
                    severity := "medium",
                    message := "High cyclomatic complexity: 12" }]) ∧
    (∀ (t : PyNode) (pf : List (String × List (Nat × String))),
      calculate_complexity t ≤ 10 → collect_issues t pf = patternIssues pf) := by
  constructor
  · obtain ⟨v, hv⟩ := maintainability_ok parse elevenIfCode elevenIfTree h
      (by decide) (by decide)
    refine ⟨_, analyze_code_ok parse elevenIfCode elevenIfTree v h hv, ?_, ?_⟩
    · show calculate_complexity elevenIfTree = 12
      decide
    · show collect_issues elevenIfTree (find_patterns elevenIfCode) =
        [{ line := none, category := some "maintainability", severity := "medium",
           message := "High cyclomatic complexity: 12" }]
      decide
  · intro t pf hle
    rw [collect_issues, if_neg (by omega), List.append_nil]

/-- Witness for C5 with the parser fixed at the scenario tree. -/
theorem C5_threshold_scenario_witness :
    (∃ r, analyze_code (fun _ => some elevenIfTree) elevenIfCode = .ok r ∧
      r.complexity = 12 ∧
      r.issues = [{ line := none, category := some "maintainability",
                    severity := "medium",
                    message := "High cyclomatic complexity: 12" }]) ∧
    (∀ (t : PyNode) (pf : List (String × List (Nat × String))),
      calculate_complexity t ≤ 10 → collect_issues t pf = patternIssues pf) :=
  C5_threshold_scenario (fun _ => some elevenIfTree) rfl

/-- C6: cognitive complexity is nesting-weighted with a stack-like
enter/exit discipline: a loop containing a branch containing another
branch scores `1 + 2 + 3 = 6`, three unnested instances of the same
constructs score `1 + 1 + 1 = 3`; so on nested input it diverges from the
plain per-construct count (both trees contain three constructs) and on
flat input it coincides with it. -/
theorem C6_cognitive_nesting_weighted :
    calculate_cognitive_complexity nestedScenarioTree = 6 ∧
    calculate_cognitive_complexity flatScenarioTree = 3 ∧
    constructCount nestedScenarioTree = 3 ∧
    constructCount flatScenarioTree = 3 ∧
    calculate_cognitive_complexity nestedScenarioTree ≠ constructCount nestedScenarioTree ∧
    calculate_cognitive_complexity flatScenarioTree = constructCount flatScenarioTree := by
  decide

/-- C7: on the text with a dynamic-execution call on line 4 and a shell
invocation on line 5, `patterns_found` has exactly the `security` category
with two findings at lines 4 and 5 (count of newlines strictly before the
match start, plus 1), and the aggregator emits exactly two high-severity
issues preserving that order. -/
theorem C7_pattern_scenario (parse : String → Option PyNode)
    (h : parse patternScenarioCode = some patternScenarioTree) :
    ∃ r, analyze_code parse patternScenarioCode = .ok r ∧
      r.patterns_found =
        [("security",
          [(4, "Use of eval() or exec()"), (5, "Potential shell injection")])] ∧
      r.issues =
        [{ line := some 4, category := some "security", severity := "high",
           message := "Use of eval() or exec()" },
         { line := some 5, category := some "security", severity := "high",
           message := "Potential shell injection" }] := by
  obtain ⟨v, hv⟩ := maintainability_ok parse patternScenarioCode patternScenarioTree h
    (by decide) (by decide)
  refine ⟨_, analyze_code_ok parse patternScenarioCode patternScenarioTree v h hv, ?_, ?_⟩
  · show find_patterns patternScenarioCode =
      [("security",
        [(4, "Use of eval() or exec()"), (5, "Potential shell injection")])]
    decide
  · show collect_issues patternScenarioTree (find_patterns patternScenarioCode) =
      [{ line := some 4, category := some "security", severity := "high",
         message := "Use of eval() or exec()" },
       { line := some 5, category := some "security", severity := "high",
         message := "Potential shell injection" }]
    decide

/-- Witness for C7 with the parser fixed at the scenario tree. -/
theorem C7_pattern_scenario_witness :
    ∃ r, analyze_code (fun _ => some patternScenarioTree) patternScenarioCode = .ok r ∧
      r.patterns_found =
        [("security",
          [(4, "Use of eval() or exec()"), (5, "Potential shell injection")])] ∧
      r.issues =
        [{ line := some 4, category := some "security", severity := "high",
           message := "Use of eval() or exec()" },
         { line := some 5, category := some "security", severity := "high",
           message := "Potential shell injection" }] :=
  C7_pattern_scenario (fun _ => some patternScenarioTree) rfl

/-- C8: `CodeReviewer._calculate_metrics` returns the all-sentinel
`CodeMetrics` for every input: the helper methods it calls are defined
nowhere in the module, so after any successful parse the attribute lookup
raises and the catch-all handler yields the sentinel record; on a parse
failure the same handler catches the `SyntaxError`.  The non-sentinel
branch is unreachable. -/
theorem C8_reviewer_metrics_always_sentinel (parse : String → Option PyNode)
    (content : String) :
    reviewer_calculate_metrics parse content =
      { cyclomatic_complexity := -1
        maintainability_index := -1
        cognitive_complexity := -1
        lines_of_code := -1
        comment_ratio := -1 } := by
  rw [reviewer_calculate_metrics, reviewer_metrics_body]
  cases parse content <;> rfl

/-- C9: a `try` statement and its `except` handler are counted as separate
decision points: any tree whose only complexity-relevant nodes are one
`Try` node and one `ExceptHandler` node has cyclomatic complexity
`3 = 1 + 1 + 1`, not 2. -/
theorem C9_try_and_handler_counted_separately (t : PyNode) (a b : PyNode)
    (hf : (walk t).filter isComplexityRelevant = [a, b])
    (ha : a.kind = .tryK) (hb : b.kind = .exceptHandlerK) :
    calculate_complexity t = 3 := by
  rw [calculate_complexity, foldl_add_eq_sum, ← sum_contrib_filter, hf]
  have hca : nodeContrib a = 1 := by
    cases a with
    | mk k cs =>
      simp only [PyNode.kind] at ha
      subst ha
      rfl
  have hcb : nodeContrib b = 1 := by
    cases b with
    | mk k cs =>
      simp only [PyNode.kind] at hb
      subst hb
      rfl
  rw [List.map_cons, List.map_cons, List.map_nil, List.sum_cons, List.sum_cons,
    List.sum_nil, hca, hcb]
  norm_num

/-- Witness for C9 on a concrete module holding `try` with one handler. -/
theorem C9_try_and_handler_witness :
    (walk tryScenarioTree).filter isComplexityRelevant =
      [pnode .tryK [pnode .other [], pnode .exceptHandlerK [pnode .other []]],
       pnode .exceptHandlerK [pnode .other []]] ∧
    calculate_complexity tryScenarioTree = 3 :=
  ⟨by decide,
   C9_try_and_handler_counted_separately tryScenarioTree
     (pnode .tryK [pnode .other [], pnode .exceptHandlerK [pnode .other []]])
     (pnode .exceptHandlerK [pnode .other []])
     (by decide) (by decide) (by decide)⟩

/-- C10: every issue `analyze` ever returns has severity `high`, `medium`
or `error`; the declared severity `low` is produced by no code path. -/
theorem C10_issue_severities (parse : String → Option PyNode) (code : String)
    (r : StaticAnalysisResult) (h : analyze_code parse code = .ok r) :
    ∀ i ∈ r.issues,
      (i.severity = "high" ∨ i.severity = "medium" ∨ i.severity = "error") ∧
      i.severity ≠ "low" := by
  intro i hi
  cases hp : parse code with
  | none =>
    rw [analyze_code_parse_failure parse code hp] at h
    injection h with h'
    subst h'
    have hi' : i ∈ [({ line := none, category := none, severity := "error",
                       message := "Invalid Python syntax" } : Issue)] := hi
    rw [List.mem_singleton] at hi'
    subst hi'
    exact ⟨Or.inr (Or.inr rfl), by decide⟩
  | some tree =>
    cases hm : calculate_maintainability parse code with
    | error e =>
      have he := maintainability_error_eq parse code tree hp hm
      subst he
      rw [analyze_code_valueError parse code tree hp hm] at h
      cases h
    | ok v =>
      rw [analyze_code_ok parse code tree v hp hm] at h
      injection h with h'
      subst h'
      rcases collect_issues_severity tree (find_patterns code) i hi with h1 | h1
      · rw [h1]
        exact ⟨Or.inl rfl, by decide⟩
      · rw [h1]
        exact ⟨Or.inr (Or.inl rfl), by decide⟩

/-- Witness for C10 at a concrete failing parse and its single issue. -/
theorem C10_issue_severities_witness :
    ((({ line := none, category := none, severity := "error",
         message := "Invalid Python syntax" } : Issue).severity = "high" ∨
      ({ line := none, category := none, severity := "error",
         message := "Invalid Python syntax" } : Issue).severity = "medium" ∨
      ({ line := none, category := none, severity := "error",
         message := "Invalid Python syntax" } : Issue).severity = "error") ∧
     ({ line := none, category := none, severity := "error",
        message := "Invalid Python syntax" } : Issue).severity ≠ "low") :=
  C10_issue_severities (fun _ => none) "y" degradedResult rfl
    { line := none, category := none, severity := "error",
      message := "Invalid Python syntax" }
    (List.mem_singleton.mpr rfl)
